import Mathlib

/-!
Verification development for the WB production/label pipeline.

The Python sources are shallowly embedded: pure helpers of
`label_generator.py` and `barcode_generator.py` become Lean functions on
`String`/`List Char`; the database-backed route handlers of
`production_routes.py`, `production_orders_routes.py` and
`print_tasks_routes.py` become functions from an explicit database state
to (response, database state), with SQLAlchemy's commit/rollback modeled
by threading a committed snapshot next to the pending session state.
-/

namespace WB

/-! ## Basic character helpers (Python semantics) -/

/-- `int(ch)` for a digit character. -/
def digitVal (c : Char) : Nat := c.toNat - '0'.toNat

/-- `str(d)` for a single decimal digit `d`. -/
def digitToChar (n : Nat) : Char := Char.ofNat (48 + n)

theorem digitToChar_isDigit {n : Nat} (h : n < 10) :
    (digitToChar n).isDigit = true := by
  interval_cases n <;> decide

theorem digitVal_digitToChar {n : Nat} (h : n < 10) :
    digitVal (digitToChar n) = n := by
  interval_cases n <;> decide

/-- Python `\s` (ASCII fragment: space, tab, newline, return, vtab, formfeed). -/
def pyIsSpace (c : Char) : Bool :=
  c = ' ' || c = '\t' || c = '\n' || c = '\r' || c = '\x0b' || c = '\x0c'

/-- Python `str.strip()` (ASCII whitespace model). -/
def pyStrip (s : String) : String :=
  String.mk (((s.data.dropWhile pyIsSpace).reverse.dropWhile pyIsSpace).reverse)

/-- Python `str.lower()` (ASCII model). -/
def pyLower (s : String) : String := String.mk (s.data.map Char.toLower)

/-- `.strip().lower()`, the normalization used on size and characteristic
names. -/
def pyStripLower (s : String) : String := pyLower (pyStrip s)

/-- Python `str.startswith(pre)`. -/
def strStarts (s pre : String) : Bool := pre.data.isPrefixOf s.data

/-! ## `label_generator.py`: GS1 → EAN-13 fallback (lines 55-79) -/

/-- `re.sub(r"\s+", "", s)` (line 63): remove all whitespace. -/
def stripWhitespace (s : List Char) : List Char := s.filter (fun c => !(pyIsSpace c))

/-- The `(\d{14})` capture: exactly 14 digits at the current position. -/
def digits14 (l : List Char) : Option (List Char) :=
  let d := l.take 14
  if d.length = 14 && d.all Char.isDigit then some d else none

/-- Match `\(01\)(\d{14})` at the current position. -/
def matchParen01 : List Char → Option (List Char)
  | '(' :: '0' :: '1' :: ')' :: rest => digits14 rest
  | _ => none

/-- Match `01(\d{14})` at the current position. -/
def matchBare01 : List Char → Option (List Char)
  | '0' :: '1' :: rest => digits14 rest
  | _ => none

/-- `re.search`: the leftmost position where the fixed-shape pattern matches. -/
def searchFirst (m : List Char → Option (List Char)) : List Char → Option (List Char)
  | [] => none
  | c :: cs =>
    match m (c :: cs) with
    | some r => some r
    | none => searchFirst m cs

/-- The regex phase of `_ean13_from_gs1` (line 64):
`re.search(r"\(01\)(\d{14})", s) or re.search(r"01(\d{14})", s)`
on the whitespace-stripped text. -/
def gs1Gtin14 (gs1_text : String) : Option (List Char) :=
  let s := stripWhitespace gs1_text.data
  match searchFirst matchParen01 s with
  | some g => some g
  | none => searchFirst matchBare01 s

/-- Weighted digit sum used by `checksum_ean13`: position `i` (0-based) gets
weight 1 when even, 3 when odd. -/
def ean13WeightedSum : Nat → List Nat → Nat
  | _, [] => 0
  | i, d :: ds => (if i % 2 = 0 then d else 3 * d) + ean13WeightedSum (i + 1) ds

/-- `checksum_ean13` (label_generator.py lines 72-77):
`(10 - (total % 10)) % 10` over the 1,3,1,3,… weighted digit sum. -/
def checksum_ean13 (d12 : List Char) : Nat :=
  (10 - ean13WeightedSum 0 (d12.map digitVal) % 10) % 10

/-- `_ean13_from_gs1` (label_generator.py lines 55-79): extract a GTIN-14 from a
GS1 text; only if its leading digit is '0', drop that digit and replace the
last digit by a freshly computed EAN-13 check digit over the first 12 of the
remaining 13. -/
def ean13_from_gs1 (gs1_text : String) : Option String :=
  if gs1_text = "" then none
  else
    match gs1Gtin14 gs1_text with
    | none => none
    | some g14 =>
      if g14.head? = some '0' then
        let d13 := g14.tail
        let d12 := d13.dropLast
        some (String.mk (d12 ++ [digitToChar (checksum_ean13 d12)]))
      else none

/-- Spec-side construction (claim C6 wording): the 13-digit string obtained from
a GTIN-14 by stripping the leading digit and recomputing the check digit over
the remaining 12 digits. -/
def ean13OfGtin (g14 : List Char) : String :=
  String.mk (g14.tail.dropLast ++ [digitToChar (checksum_ean13 g14.tail.dropLast)])

/-- Spec-side predicate (claim C6 wording): the text contains, after whitespace
removal, `(01)` or `01` followed by 14 digits whose first digit is `0`. -/
def containsZeroGtinPattern (s : String) : Bool :=
  let t := stripWhitespace s.data
  (t.tails.any fun l => (matchParen01 l).any fun g => g.head? == some '0') ||
  (t.tails.any fun l => (matchBare01 l).any fun g => g.head? == some '0')

/-- Spec-side EAN-13 checksum validity: 13 digits whose 1,3,1,3,…-weighted sum
is divisible by 10. -/
def ean13Valid (s : String) : Prop :=
  s.length = 13 ∧ s.data.all Char.isDigit ∧
    ean13WeightedSum 0 (s.data.map digitVal) % 10 = 0

/-! ## `label_generator.py`: `_make_ean_reader` (lines 33-51)

The rendered barcode image is abstracted to the accepted code string;
`None` models returning no reader. -/

/-- `_make_ean_reader`: accepts only a 12- or 13-digit code (after `strip()`). -/
def make_ean_reader (ean_code : String) : Option String :=
  if ean_code = "" then none
  else
    let code := pyStrip ean_code
    if code.data.all Char.isDigit && (code.length = 12 || code.length = 13) then
      some code
    else none

/-! ## `label_generator.py`: label composition and page consumption (83-245) -/

/-- One page of an uploaded CIS label source document, as the generator sees
it: the payload of its (at most one, first detected) Data Matrix code, and the
page's text layer split into lines. -/
structure SourcePage where
  matrixPayload : Option String := none
  textLines : List String := []
deriving DecidableEq

/-- Metadata passed to `generate_labels_sync` (its keyword parameters). -/
structure LabelMeta where
  title : String := ""
  color : String := ""
  wb_size : String := ""
  material : String := ""
  country : String := ""
  ip_name : String := ""
  /-- `nm_id` as rendered by `f"Арт. {nm_id}"`. -/
  nm_id : String := ""
deriving DecidableEq

/-- A text line drawn in the right-hand metadata column (lines 207-224). -/
inductive TextLine where
  | titleLine (s : String)
  | colorLine (s : String)
  | sizeLine (s : String)
  | materialLine (s : String)
  | countryLine (s : String)
  | ipLine (s : String)
  | articleLine (s : String)
deriving DecidableEq

/-- The metadata block drawn on every label page (label_generator.py lines
207-224): each optional field is drawn exactly when non-empty (Python
truthiness), the article line is drawn unconditionally, and no display-setting
flag is consulted (the function receives none).  The `simpleSplit` line
wrapping of the title is abstracted to a single drawn block. -/
def drawnTextFields (md : LabelMeta) : List TextLine :=
  (if md.title != "" then [TextLine.titleLine md.title] else []) ++
  (if md.color != "" then [TextLine.colorLine md.color] else []) ++
  (if md.wb_size != "" then [TextLine.sizeLine md.wb_size] else []) ++
  (if md.material != "" then [TextLine.materialLine md.material] else []) ++
  (if md.country != "" then [TextLine.countryLine md.country] else []) ++
  (if md.ip_name != "" then [TextLine.ipLine md.ip_name] else []) ++
  [TextLine.articleLine md.nm_id]

/-- Lines 152-160: the first text line that (after `strip()`) starts with
`"01"` or `"(01)"`, else `""`. -/
def findGs1Line (textLines : List String) : String :=
  ((textLines.map pyStrip).find? fun t =>
      strStarts t "01" || strStarts t "(01)").getD ""

/-- One composed output page. -/
structure LabelPage where
  /-- re-encoded Data Matrix payload (`|` restored to the GS control char) -/
  dm : Option String := none
  /-- the linear barcode drawn, if any (modeled by its code string) -/
  ean : Option String := none
  /-- the GS1 text line drawn under the Data Matrix, if any -/
  gs1Text : Option String := none
  texts : List TextLine := []
deriving DecidableEq

/-- Composition of a single label page from one source page (the body of the
per-page loop, lines 138-238): Data Matrix first, then the linear barcode
(explicit `ean_code` reader first, GS1 fallback otherwise), then the GS1 text
line, then the metadata block. -/
def composeLabelPage (md : LabelMeta) (eanReaderGlobal : Option String)
    (page : SourcePage) : LabelPage :=
  let gs1_code := findGs1Line page.textLines
  let code_raw := page.matrixPayload.map fun d =>
    String.mk (d.data.map fun c => if c = '|' then '\x1d' else c)
  let ean_reader :=
    match eanReaderGlobal with
    | some r => some r
    | none =>
      match ean13_from_gs1 gs1_code with
      | some e => make_ean_reader e
      | none => none
  { dm := code_raw
    ean := ean_reader
    gs1Text := if gs1_code != "" then some gs1_code else none
    texts := drawnTextFields md }

/-- The page-consumption loop of `generate_labels_sync` (lines 134-239): up to
`qty` iterations, each taking the **last** remaining source page (`doc[-1]`),
emitting one composed page, and deleting that source page; stops early when the
source is exhausted (`if doc.page_count == 0: break`). Returns (output pages,
remaining source pages). -/
def generateLoop (md : LabelMeta) (eg : Option String) :
    Nat → List SourcePage → List LabelPage × List SourcePage
  | 0, pages => ([], pages)
  | n + 1, pages =>
    match pages.getLast? with
    | none => ([], pages)
    | some page =>
      let out := composeLabelPage md eg page
      let (outs, remaining) := generateLoop md eg n pages.dropLast
      (out :: outs, remaining)

/-- `generate_labels_sync` (label_generator.py lines 83-245), on the source
document's page list: `qty = max(0, int(quantity))`, the EAN reader for the
explicit `ean_code` is prepared once up front, then the per-page loop runs.
Returns (output artifact pages, updated source pages). -/
def generate_labels_sync (pages : List SourcePage) (quantity : Int)
    (md : LabelMeta) (ean_code : String) : List LabelPage × List SourcePage :=
  let ean_reader_global := make_ean_reader ean_code
  generateLoop md ean_reader_global (max 0 quantity).toNat pages

/-! ## `barcode_generator.py`: delivery-number sanitization (lines 31-36) -/

/-- Python `\w` (ASCII model): letters, digits, underscore. -/
def pyIsWordChar (c : Char) : Bool := c.isAlphanum || c = '_'

/-- A character left alone by `re.sub(r"[^\w\-]", "-", ·)`. -/
def keepChar (c : Char) : Bool := pyIsWordChar c || c = '-'

/-- The hyphen test of `re.sub(r"-+", "-", ·)` and `.strip("-")`. -/
def isDash (c : Char) : Bool := c = '-'

/-- The run test of the spec-side run replacement. -/
def notKeep (c : Char) : Bool := !(keepChar c)

/-- A character that the substitution turns into (or that already is) `'-'`. -/
def badOrDash (c : Char) : Bool := !(keepChar c) || c = '-'

/-- `re.sub(r"[^\w\-]", "-", s)` (line 32): every non-word, non-hyphen
character becomes a hyphen. -/
def dashNonWord (s : List Char) : List Char :=
  s.map (fun c => if keepChar c then c else '-')

theorem dropWhile_length_le (p : Char → Bool) (l : List Char) :
    (l.dropWhile p).length ≤ l.length :=
  (List.dropWhile_suffix p).sublist.length_le

/-- `re.sub(r"-+", "-", s)` (line 33): collapse each run of hyphens (an
adjacent-pair formulation, structurally recursive; `collapseDashes_dash`
below gives the run-at-a-time reading). -/
def collapseDashes : List Char → List Char
  | [] => []
  | [c] => [c]
  | c :: d :: cs =>
    if isDash c && isDash d then collapseDashes (d :: cs)
    else c :: collapseDashes (d :: cs)

/-- `.strip("-")` (line 33): drop hyphens from both ends. -/
def stripDashes (s : List Char) : List Char :=
  ((s.dropWhile isDash).reverse.dropWhile isDash).reverse

/-- The sanitization applied to the (already `.strip()`ed) delivery number
(barcode_generator.py lines 32-33): dash non-word characters, collapse dash
runs, strip dashes at the ends. -/
def sanitizeDeliveryNumber (s : String) : String :=
  String.mk (stripDashes (collapseDashes (dashNonWord s.data)))

/-- Lines 31-36 of `generate_delivery_barcodes`: normalize and sanitize the
delivery number; raise `ValueError` when the result is empty. -/
def deliverySafeNum (delivery_number : String) : Except String String :=
  let safe_num := sanitizeDeliveryNumber (pyStrip delivery_number)
  if safe_num = "" then Except.error "Номер поставки не может быть пустым"
  else Except.ok safe_num

/-- Spec-side (claim C9 wording): replace any **run** of non-word/non-hyphen
characters with a single hyphen. -/
def runDashNonWord : List Char → List Char
  | [] => []
  | c :: cs =>
    if keepChar c then c :: runDashNonWord cs
    else '-' :: runDashNonWord (cs.dropWhile notKeep)
termination_by l => l.length
decreasing_by
  · simp
  · simpa using Nat.lt_succ_of_le (dropWhile_length_le _ cs)

/-- Spec-side (claim C9 wording): run-replacement, then collapse repeated
hyphens, then strip leading/trailing hyphens. -/
def sanitizeSpec (s : String) : String :=
  String.mk (stripDashes (collapseDashes (runDashNonWord s.data)))

/-- Common normal form of both sanitization pipelines. -/
def sanCore : List Char → List Char
  | [] => []
  | c :: cs =>
    if keepChar c && c != '-' then c :: sanCore cs
    else '-' :: sanCore (cs.dropWhile badOrDash)
termination_by l => l.length
decreasing_by
  · simp
  · simpa using Nat.lt_succ_of_le (dropWhile_length_le _ cs)

/-! ## `models.py`: rows of the single current workspace (session)

All route handlers below operate on one workspace: every query in the source
filters by the current `session.id`, so the state holds only that session's
rows.  Presentation-only columns (photos, links, timestamps, …) that the
modeled logic never reads are omitted. -/

/-- `User` label-display columns (`models.py` lines 33-41); `None` means the
column was never set. -/
structure UserRow where
  label_show_ean : Option Bool := none
  label_show_gs1 : Option Bool := none
  label_show_title : Option Bool := none
  label_show_color : Option Bool := none
  label_show_size : Option Bool := none
  label_show_material : Option Bool := none
  label_show_country : Option Bool := none
  label_show_ip : Option Bool := none
  label_show_article : Option Bool := none
deriving DecidableEq

/-- The dictionary returned by `User.get_label_settings` (models.py 81-93). -/
structure LabelSettings where
  show_ean : Bool := true
  show_gs1 : Bool := true
  show_title : Bool := true
  show_color : Bool := true
  show_size : Bool := true
  show_material : Bool := true
  show_country : Bool := true
  show_ip : Bool := true
  show_article : Bool := true
deriving DecidableEq

/-- `User.get_label_settings` (models.py lines 81-93): each flag defaults to
`True` when the column is `None`. -/
def get_label_settings (u : UserRow) : LabelSettings :=
  { show_ean := u.label_show_ean.getD true
    show_gs1 := u.label_show_gs1.getD true
    show_title := u.label_show_title.getD true
    show_color := u.label_show_color.getD true
    show_size := u.label_show_size.getD true
    show_material := u.label_show_material.getD true
    show_country := u.label_show_country.getD true
    show_ip := u.label_show_ip.getD true
    show_article := u.label_show_article.getD true }

/-- One entry of `Product.sizes_json`. -/
structure SizeEntry where
  techSize : String := ""
  skus : List String := []
deriving DecidableEq

/-- One entry of the card-data `characteristics` array; the value is modeled
already stringified (the source joins list values and strips). -/
structure Characteristic where
  name : String := ""
  value : String := ""
deriving DecidableEq

/-- `Product` (models.py 227-358), the columns the modeled routes read. -/
structure Product where
  nm_id : Nat
  group_id : Nat := 0
  title : String := ""
  brand : String := ""
  sizes : List SizeEntry := []
  characteristics : List Characteristic := []
deriving DecidableEq

/-- Result of `Product.get_metadata_for_labels`. -/
structure ProductMeta where
  title : String := ""
  material : String := ""
  country : String := ""
  color : String := ""
  brand : String := ""
deriving DecidableEq

def materialNames : List String := ["состав", "материал", "материал изделия"]

def countryNames : List String :=
  ["страна", "страна производства", "страна-изготовитель", "страна производитель", "country"]

def colorNames : List String := ["цвет", "color"]

/-- `Product.get_metadata_for_labels` (models.py 302-333): scan the
characteristics, the first matching name (case-folded, stripped) fills each of
material/country/color. -/
def Product.get_metadata_for_labels (p : Product) : ProductMeta :=
  let step := fun (acc : String × String × String) (ch : Characteristic) =>
    let (material, country, color) := acc
    let name := pyStripLower ch.name
    let val := pyStrip ch.value
    let material := if material = "" && materialNames.contains name then val else material
    let country := if country = "" && countryNames.contains name then val else country
    let color := if color = "" && colorNames.contains name then val else color
    (material, country, color)
  let (material, country, color) := p.characteristics.foldl step ("", "", "")
  { title := p.title, material := material, country := country, color := color,
    brand := p.brand }

/-- `Product.get_sku_for_size` (models.py 335-343): first size entry whose
`techSize` matches case-insensitively (after strip) **and** has a non-empty
sku list yields its first sku. -/
def Product.get_sku_for_size (p : Product) (tech_size : String) : Option String :=
  p.sizes.findSome? fun sz =>
    if pyStripLower sz.techSize = pyStripLower tech_size then sz.skus.head? else none

/-- `ProductGroup` (models.py 177-225): only the key is needed. -/
structure ProductGroup where
  id : Nat
deriving DecidableEq

/-- `CISLabel` (models.py 520-574): `file_data` is modeled as the parsed list
of source pages (its page count is the list length); empty `file_data` is the
empty page list. -/
structure CISLabel where
  group_id : Nat
  tech_size : String
  pages : List SourcePage := []
deriving DecidableEq

/-- `OrderItem` (models.py 397-451), the columns the modeled routes read. -/
structure OrderItem where
  id : Nat
  order_id : Nat := 0
  nm_id : Nat := 0
  tech_size : String := ""
  color : String := ""
  brand : String := ""
  title : String := ""
  quantity : Nat := 1
  print_status : String := ""
deriving DecidableEq

/-- `ProductionOrder` (added by `migrate_production_orders.py`), the columns
the modeled routes read. -/
structure ProductionOrder where
  id : Nat
  order_item_id : Nat := 0
  nm_id : Nat := 0
  tech_size : String := ""
  color : String := ""
  brand : String := ""
  title : String := ""
  quantity : Nat := 1
  print_status : String := ""
deriving DecidableEq

/-- `ProductionItem` (models.py 453-518), the columns the modeled routes
create/read. -/
structure ProductionItem where
  order_id : Option Nat := none
  order_item_id : Nat := 0
  nm_id : Nat := 0
  tech_size : String := ""
  color : String := ""
  brand : String := ""
  title : String := ""
  quantity : Nat := 1
  print_status : String := ""
  labels_link : Option String := none
deriving DecidableEq

/-- `PrintTask` (models.py 753-816); `film_usage` is a real-valued column
(`db.Float`), modeled by `Rat`. -/
structure PrintTask where
  id : Nat
  quantity : Nat := 1
  film_usage : Rat := 0
  order_item_ids : List Nat := []
deriving DecidableEq

/-- Modelled from the spec: `PrintTask.get_order_item_ids` returns the linked
originating order-item ids (§4.5 "deletes the originating order-item-stage
row(s)", §9 "union linked-unit-id sets").  The method and its
`order_item_ids_json` column are added by `migrate_print_tasks.py` but their
definitions are absent from `src/models.py`. -/
def PrintTask.get_order_item_ids (t : PrintTask) : List Nat := t.order_item_ids

/-- `BrandExpense` usage-ledger row (one per date/brand/product/color). -/
structure BrandExpense where
  date : Nat
  brand : String := ""
  product_name : String := ""
  color : String := ""
  sizes : List (String × Nat) := []
  bags_used : Nat := 0
deriving DecidableEq

/-- `Inventory` (models.py 819-870), the two counters the modeled routes
touch; `print_film` holds real-valued amounts after float deductions. -/
structure Inventory where
  bags_25x30 : Int := 0
  print_film : Rat := 0
deriving DecidableEq

/-- The current workspace's database state. -/
structure DB where
  products : List Product := []
  productGroups : List ProductGroup := []
  cisLabels : List CISLabel := []
  orderItems : List OrderItem := []
  productionOrders : List ProductionOrder := []
  productionItems : List ProductionItem := []
  printTasks : List PrintTask := []
  brandExpenses : List BrandExpense := []
  inventory : Option Inventory := none
deriving DecidableEq

/-! ## Generic query/update helpers (SQLAlchemy idioms) -/

/-- `query.filter_by(...).first()` then mutate that one row. -/
def updateFirst (p : α → Bool) (f : α → α) : List α → List α
  | [] => []
  | x :: xs => if p x then f x :: xs else x :: updateFirst p f xs

/-- `sizes.get(k, 0)` + assignment back into the JSON dict. -/
def updateSizes (sizes : List (String × Nat)) (k : String) (add : Nat) :
    List (String × Nat) :=
  let cur := ((sizes.find? (fun e => e.1 == k)).map Prod.snd).getD 0
  if sizes.any (fun e => e.1 == k) then
    sizes.map (fun e => if e.1 == k then (e.1, cur + add) else e)
  else sizes ++ [(k, cur + add)]

/-- `Product.query.filter_by(nm_id=nm_id).first()`. -/
def findProduct (db : DB) (nm : Nat) : Option Product :=
  db.products.find? (fun p => p.nm_id == nm)

/-- `ProductGroup.query.join(Product).filter(Product.nm_id == nm_id,
ProductGroup.session_id == session.id).first()`. -/
def findProductGroup (db : DB) (nm : Nat) : Option ProductGroup :=
  db.productGroups.find? (fun g =>
    db.products.any (fun p => p.nm_id == nm && p.group_id == g.id))

/-- `CISLabel.query.filter_by(group_id=…, tech_size=…).first()`. -/
def findCISLabel (db : DB) (gid : Nat) (size : String) : Option CISLabel :=
  db.cisLabels.find? (fun c => c.group_id == gid && c.tech_size == size)

/-- Overwrite the found CIS label's `file_data` with the shrunk document. -/
def setCISLabelPages (labels : List CISLabel) (gid : Nat) (size : String)
    (pages : List SourcePage) : List CISLabel :=
  updateFirst (fun c => c.group_id == gid && c.tech_size == size)
    (fun c => { c with pages := pages }) labels

/-- Brand-expense upsert shared by both move-to-production endpoints
(production_routes.py 205-242, production_orders_routes.py 276-308): find the
row for (today, brand, product, color) — with `or`-fallback names — then add
the quantity to the size counter and to `bags_used`, or create the row.
`colorFallback` is `''` in the order-items endpoint and `'Без цвета'` in the
production-orders endpoint. -/
def trackBrandExpense (today : Nat) (colorFallback : String)
    (expenses : List BrandExpense) (item_brand item_title item_color : String)
    (item_size : String) (qty : Nat) : List BrandExpense :=
  let brand := if item_brand = "" then "Без бренда" else item_brand
  let pname := if item_title = "" then "Без названия" else item_title
  let cname := if item_color = "" then colorFallback else item_color
  let keyMatch := fun (e : BrandExpense) =>
    e.date == today && e.brand == brand && e.product_name == pname && e.color == cname
  if expenses.any keyMatch then
    updateFirst keyMatch
      (fun e => { e with sizes := updateSizes e.sizes item_size qty,
                         bags_used := e.bags_used + qty }) expenses
  else
    expenses ++ [{ date := today, brand := brand, product_name := pname,
                   color := cname, sizes := [(item_size, qty)], bags_used := qty }]

/-! ## The `generate_labels_sync(...)` call as made by both endpoints -/

/-- Python-level errors surfaced by the modeled calls. -/
inductive PyError where
  | typeError (unexpectedKeyword : String)
deriving DecidableEq

/-- Parameter names of `generate_labels_sync` (label_generator.py 83-94); the
signature has no `**kwargs`. -/
def generateLabelsSyncParams : List String :=
  ["local_pdf_path", "quantity", "title", "color", "wb_size", "material",
   "ean_code", "country", "ip_name", "nm_id"]

/-- Keyword-argument names used at both call sites (production_routes.py
129-141 and production_orders_routes.py 190-202). -/
def moveToProductionCallKwargs : List String :=
  ["local_pdf_path", "quantity", "title", "color", "wb_size", "material",
   "ean_code", "country", "ip_name", "nm_id", "label_settings"]

/-- Python call binding: the first keyword argument the signature does not
accept (such a call raises `TypeError` before the body runs). -/
def unexpectedKwarg (params kwargs : List String) : Option String :=
  kwargs.find? (fun k => !(params.contains k))

/-- The call `generate_labels_sync(..., label_settings=label_settings)` as
performed by both move-to-production endpoints: keyword binding first, only
then the function body. -/
def callGenerateLabelsSync (pages : List SourcePage) (quantity : Int)
    (md : LabelMeta) (ean_code : String) :
    Except PyError (List LabelPage × List SourcePage) :=
  match unexpectedKwarg generateLabelsSyncParams moveToProductionCallKwargs with
  | some k => Except.error (PyError.typeError k)
  | none => Except.ok (generate_labels_sync pages quantity md ean_code)

/-! ## Route responses -/

/-- Per-group validation failures (production_orders_routes.py 79-141); each
constructor carries the data interpolated into its message. -/
inductive GroupCheckError where
  | productNotFound (nm_id : Nat) (tech_size : String)
  | groupNotFound (nm_id : Nat) (tech_size : String)
  | skuNotFound (nm_id : Nat) (tech_size : String)
  | cisNotFound (nm_id : Nat) (tech_size : String)
  | notEnoughPages (nm_id : Nat) (tech_size : String) (required available : Nat)
deriving DecidableEq

/-- Responses of the two move-to-production endpoints, message payloads kept
structurally. -/
inductive Resp where
  /-- success (`moved_count`, `labels_generated`) -/
  | ok (moved labels : Nat)
  /-- 400 "Не указан заказ или товары" / "Не выбраны товары" -/
  | badRequestNoItems
  /-- 404 "Товары не найдены" -/
  | notFoundItems
  /-- 400: some selected items are not in print status "ГОТОВ" -/
  | notReady (names : List String)
  /-- 400 aggregated validation-error list (production-orders endpoint) -/
  | validationAbort (errors : List GroupCheckError)
  /-- 500 label-generation failure for one group (production-orders endpoint) -/
  | labelGenFailure (nm_id : Nat) (tech_size : String) (e : PyError)
  /-- 400 "Недостаточно пакетов… Требуется: r, доступно: a" -/
  | insufficientBags (required : Nat) (available : Int)
  /-- 400 "Ни один товар не был перенесён…" (order-items endpoint) -/
  | nothingMoved
  /-- 500 generic handler of the outer `except` -/
  | serverError
deriving DecidableEq

/-- Is the response the aggregated per-group abort the spec describes? -/
def isAggregatedAbort : Resp → Bool
  | Resp.validationAbort (_ :: _) => true
  | _ => false

/-! ## `production_orders_routes.py::move_to_production` (lines 36-347) -/

/-- Grouping key (`(item.nm_id, item.tech_size)`). -/
def poKey (i : ProductionOrder) : Nat × String := (i.nm_id, i.tech_size)

/-- Insertion-ordered distinct keys (Python dict construction). -/
def groupKeysOf (pairs : List (Nat × String)) : List (Nat × String) :=
  pairs.foldl (fun ks k => if ks.contains k then ks else ks ++ [k]) []

/-- `items_by_product` as an ordered association list. -/
def poGroups (orders : List ProductionOrder) :
    List ((Nat × String) × List ProductionOrder) :=
  (groupKeysOf (orders.map poKey)).map
    (fun k => (k, orders.filter (fun i => poKey i == k)))

/-- STEP 1 checks for one group (production_orders_routes.py 82-134): product
exists, product group exists, sku exists for the size, CIS label exists, CIS
label has at least the group's summed quantity of pages. -/
def validateGroup (db : DB) (nm : Nat) (size : String)
    (items : List ProductionOrder) : Option GroupCheckError :=
  match findProduct db nm with
  | none => some (GroupCheckError.productNotFound nm size)
  | some product =>
    match findProductGroup db nm with
    | none => some (GroupCheckError.groupNotFound nm size)
    | some pg =>
      match product.get_sku_for_size size with
      | none => some (GroupCheckError.skuNotFound nm size)
      | some _ =>
        match findCISLabel db pg.id size with
        | none => some (GroupCheckError.cisNotFound nm size)
        | some cis =>
          let available := cis.pages.length
          let required := (items.map (fun i => i.quantity)).sum
          if available < required then
            some (GroupCheckError.notEnoughPages nm size required available)
          else none

/-- The aggregated `validation_errors` list of STEP 1. -/
def poValidationErrors (db : DB) (orders : List ProductionOrder) :
    List GroupCheckError :=
  (poGroups orders).filterMap (fun g => validateGroup db g.1.1 g.1.2 g.2)

/-- The `LabelMeta` handed to the generation call. -/
def labelMetaFor (meta : ProductMeta) (tech_size ip_name : String) (nm : Nat) :
    LabelMeta :=
  { title := meta.title, color := meta.color, wb_size := tech_size,
    material := meta.material, country := meta.country, ip_name := ip_name,
    nm_id := toString nm }

/-- The production item created from one production order (lines 253-271). -/
def mkProductionItemPO (labels_url : Option String) (i : ProductionOrder) :
    ProductionItem :=
  { order_id := none, order_item_id := i.order_item_id, nm_id := i.nm_id,
    tech_size := i.tech_size, color := i.color, brand := i.brand,
    title := i.title, quantity := i.quantity, print_status := i.print_status,
    labels_link := labels_url }

/-- Per-item body of the STEP 2 loop (lines 244-312): create the production
item, count its quantity toward the bag total, upsert the brand expense,
delete the production order.  State: (pending session, moved, total). -/
def poProcessItem (today : Nat) (labels_url : Option String)
    (st : DB × Nat × Nat) (i : ProductionOrder) : DB × Nat × Nat :=
  let (pending, moved, total) := st
  let pending :=
    { pending with
      productionItems := pending.productionItems ++ [mkProductionItemPO labels_url i],
      brandExpenses := trackBrandExpense today "Без цвета" pending.brandExpenses
        i.brand i.title i.color i.tech_size i.quantity,
      productionOrders := pending.productionOrders.eraseP (fun x => x.id == i.id) }
  (pending, moved + 1, total + i.quantity)

/-- STEP 2 of the production-orders endpoint (lines 142-342), then the bag
deduction (314-332) and final commit (334).  `committed` is the state a
`db.session.rollback()` returns to; `pending` is the session's working state.
A generation failure rolls back and returns 500 (lines 231-242); insufficient
bags roll back and return the 400 with required/available (322-328). -/
def poPhase2 (today : Nat) (ip : String) :
    List ((Nat × String) × List ProductionOrder) → DB → DB → Nat → Nat → Nat →
    Resp × DB
  | [], _committed, pending, moved, labels, total =>
    if total > 0 then
      let inv := pending.inventory.getD {}
      if inv.bags_25x30 < (total : Int) then
        (Resp.insufficientBags total inv.bags_25x30, _committed)
      else
        let pending :=
          { pending with inventory := some { inv with bags_25x30 := inv.bags_25x30 - total } }
        (Resp.ok moved labels, pending)
    else (Resp.ok moved labels, pending)
  | ((nm, size), items) :: rest, committed, pending, moved, labels, total =>
    match findProduct pending nm with
    | none => (Resp.serverError, committed)
    | some product =>
      match findProductGroup pending nm with
      | none => (Resp.serverError, committed)
      | some pg =>
        match findCISLabel pending pg.id size with
        | none => (Resp.serverError, committed)
        | some cis =>
          let total_quantity := (items.map (fun i => i.quantity)).sum
          let md := labelMetaFor product.get_metadata_for_labels size ip nm
          let sku := (product.get_sku_for_size size).getD ""
          match callGenerateLabelsSync cis.pages (total_quantity : Int) md sku with
          | Except.error e => (Resp.labelGenFailure nm size e, committed)
          | Except.ok (_out, updatedPages) =>
            let pending :=
              { pending with cisLabels := setCISLabelPages pending.cisLabels pg.id size updatedPages }
            let labels_url := some ("/labels/labels_po_" ++ toString nm ++ "_" ++ size)
            let (pending, moved, total) :=
              items.foldl (poProcessItem today labels_url) (pending, moved, total)
            poPhase2 today ip rest committed pending moved (labels + 1) total

/-- `production_orders_routes.py::move_to_production` (lines 36-347): request
validation, the ГОТОВ print-status gate, STEP 1 all-group validation with
aggregated abort, then STEP 2.  Returns the response and the database state
observable after the request (committed state). -/
def poMoveToProduction (db : DB) (item_ids : List Nat) (today : Nat)
    (ip : String) : Resp × DB :=
  if item_ids.isEmpty then (Resp.badRequestNoItems, db)
  else
    let production_orders := db.productionOrders.filter (fun i => item_ids.contains i.id)
    if production_orders.isEmpty then (Resp.notFoundItems, db)
    else
      let items_not_ready := production_orders.filter (fun i => i.print_status != "ГОТОВ")
      if !items_not_ready.isEmpty then
        (Resp.notReady (items_not_ready.map (fun i => i.title ++ " (" ++ i.tech_size ++ ")")), db)
      else
        let validation_errors := poValidationErrors db production_orders
        if !validation_errors.isEmpty then (Resp.validationAbort validation_errors, db)
        else poPhase2 today ip (poGroups production_orders) db db 0 0 0

/-! ## `production_routes.py::move_to_production` (lines 22-288) -/

/-- Grouping key for order items. -/
def oiKey (i : OrderItem) : Nat × String := (i.nm_id, i.tech_size)

/-- `items_by_product` for the order-items endpoint. -/
def oiGroups (items : List OrderItem) : List ((Nat × String) × List OrderItem) :=
  (groupKeysOf (items.map oiKey)).map
    (fun k => (k, items.filter (fun i => oiKey i == k)))

/-- The production item created from one order item (lines 180-197). -/
def mkProductionItemOI (labels_url : Option String) (i : OrderItem) :
    ProductionItem :=
  { order_id := some i.order_id, order_item_id := i.id, nm_id := i.nm_id,
    tech_size := i.tech_size, color := i.color, brand := i.brand,
    title := i.title, quantity := i.quantity, print_status := i.print_status,
    labels_link := labels_url }

/-- Per-item body of the move loop (lines 179-245): create the production
item, delete the order item, count the quantity, upsert the brand expense
(color fallback `''` here). -/
def oiProcessItem (today : Nat) (labels_url : Option String)
    (st : DB × Nat × Nat) (i : OrderItem) : DB × Nat × Nat :=
  let (pending, moved, total) := st
  let pending :=
    { pending with
      productionItems := pending.productionItems ++ [mkProductionItemOI labels_url i],
      orderItems := pending.orderItems.eraseP (fun x => x.id == i.id),
      brandExpenses := trackBrandExpense today "" pending.brandExpenses
        i.brand i.title i.color i.tech_size i.quantity }
  (pending, moved + 1, total + i.quantity)

/-- The per-group loop of the order-items endpoint (lines 74-245) followed by
the bag deduction (247-265), the final commit (267) and the
`moved_count == 0` check (269-274).  A group failing any lookup — or whose
generation call raises — is **skipped** (`continue`), it does not abort the
batch.  On generation success the CIS label update is committed immediately
(line 156), so `committed` advances group by group. -/
def oiLoop (today : Nat) (ip : String) (oid : Nat) :
    List ((Nat × String) × List OrderItem) → DB → DB → Nat → Nat → Nat →
    Resp × DB
  | [], _committed, pending, moved, labels, total =>
    if total > 0 then
      let inv := pending.inventory.getD {}
      if inv.bags_25x30 < (total : Int) then
        (Resp.insufficientBags total inv.bags_25x30, _committed)
      else
        let pending :=
          { pending with inventory := some { inv with bags_25x30 := inv.bags_25x30 - total } }
        if moved = 0 then (Resp.nothingMoved, pending)
        else (Resp.ok moved labels, pending)
    else
      if moved = 0 then (Resp.nothingMoved, pending)
      else (Resp.ok moved labels, pending)
  | ((nm, size), items) :: rest, committed, pending, moved, labels, total =>
    match findProduct pending nm with
    | none => oiLoop today ip oid rest committed pending moved labels total
    | some product =>
      match findProductGroup pending nm with
      | none => oiLoop today ip oid rest committed pending moved labels total
      | some pg =>
        match findCISLabel pending pg.id size with
        | none => oiLoop today ip oid rest committed pending moved labels total
        | some cis =>
          if cis.pages.isEmpty then
            oiLoop today ip oid rest committed pending moved labels total
          else
            let total_quantity := (items.map (fun i => i.quantity)).sum
            let md := labelMetaFor product.get_metadata_for_labels size ip nm
            let sku := (product.get_sku_for_size size).getD ""
            match callGenerateLabelsSync cis.pages (total_quantity : Int) md sku with
            | Except.error _ =>
              oiLoop today ip oid rest committed pending moved labels total
            | Except.ok (_out, updatedPages) =>
              let pending :=
                { pending with cisLabels := setCISLabelPages pending.cisLabels pg.id size updatedPages }
              let committed := pending
              let labels_url :=
                some ("/labels/labels_" ++ toString oid ++ "_" ++ toString nm ++ "_" ++ size)
              let (pending, moved, total) :=
                items.foldl (oiProcessItem today labels_url) (pending, moved, total)
              oiLoop today ip oid rest committed pending moved (labels + 1) total

/-- `production_routes.py::move_to_production` (lines 22-288). -/
def oiMoveToProduction (db : DB) (order_id : Option Nat) (item_ids : List Nat)
    (today : Nat) (ip : String) : Resp × DB :=
  match order_id with
  | none => (Resp.badRequestNoItems, db)
  | some oid =>
    if item_ids.isEmpty then (Resp.badRequestNoItems, db)
    else
      let order_items := db.orderItems.filter
        (fun i => item_ids.contains i.id && i.order_id == oid)
      if order_items.isEmpty then (Resp.notFoundItems, db)
      else
        let items_not_ready := order_items.filter (fun i => i.print_status != "ГОТОВ")
        if !items_not_ready.isEmpty then
          (Resp.notReady (items_not_ready.map (fun i => i.title ++ " (" ++ i.tech_size ++ ")")), db)
        else oiLoop today ip oid (oiGroups order_items) db db 0 0 0

/-! ## `print_tasks_routes.py::complete_print_task` (lines 258-311) -/

inductive PrintResp where
  | notFound
  /-- 400 "Недостаточно пленки… Требуется: r м, доступно: a м" -/
  | insufficientFilm (required available : Rat)
  | completed
deriving DecidableEq

/-- `complete_print_task`: with a positive `film_usage`, check the film
counter and fail the whole request (no commit, hence no observable state
change) when `print_film < film_usage`; otherwise deduct, flip the linked
production orders to ГОТОВ, delete the linked order items, delete the task,
commit. -/
def complete_print_task (db : DB) (task_id : Nat) : PrintResp × DB :=
  match db.printTasks.find? (fun t => t.id == task_id) with
  | none => (PrintResp.notFound, db)
  | some print_task =>
    let step2 := fun (pending : DB) =>
      let ids := print_task.get_order_item_ids
      let pending :=
        { pending with
          productionOrders := pending.productionOrders.map (fun (po : ProductionOrder) =>
            if ids.contains po.order_item_id then { po with print_status := "ГОТОВ" } else po),
          orderItems := pending.orderItems.filter (fun i => !(ids.contains i.id)) }
      let pending :=
        { pending with printTasks := pending.printTasks.eraseP (fun t => t.id == task_id) }
      (PrintResp.completed, pending)
    if print_task.film_usage > 0 then
      let inv := db.inventory.getD {}
      if inv.print_film < print_task.film_usage then
        (PrintResp.insufficientFilm print_task.film_usage inv.print_film, db)
      else
        step2 { db with inventory := some { inv with print_film := inv.print_film - print_task.film_usage } }
    else step2 db

/-! ## Theorems about the page-consumption loop (claims C4, C5) -/

theorem generateLoop_eq (md : LabelMeta) (eg : Option String) :
    ∀ (k : Nat) (pages : List SourcePage),
      generateLoop md eg k pages =
        ((pages.reverse.take k).map (composeLabelPage md eg),
         (pages.reverse.drop k).reverse) := by
  intro k
  induction k with
  | zero => intro pages; simp [generateLoop]
  | succ k ih =>
    intro pages
    rcases pages.eq_nil_or_concat' with rfl | ⟨l, a, rfl⟩
    · simp [generateLoop]
    · simp [generateLoop, ih, List.reverse_append]

theorem max_zero_toNat (k : Nat) : (max 0 ((k : Nat) : Int)).toNat = k := by
  omega

/-- C4: for a source document of `p` pages and a requested quantity
`k ≤ p`, label generation produces exactly `k` output pages, consumes exactly
the last `k` source pages (the updated source is the original first `p - k`
pages in order), and the output pages are the consumed pages, last first,
each composed by the per-page composition; in particular `k = 0` produces an
empty artifact and leaves the source unchanged. -/
theorem C4_generation_consumes_tail (pages : List SourcePage) (k : Nat)
    (md : LabelMeta) (ean_code : String) (h : k ≤ pages.length) :
    (generate_labels_sync pages (k : Int) md ean_code).1.length = k ∧
    (generate_labels_sync pages (k : Int) md ean_code).2
      = pages.take (pages.length - k) ∧
    (generate_labels_sync pages (k : Int) md ean_code).1
      = ((pages.drop (pages.length - k)).reverse).map
          (composeLabelPage md (make_ean_reader ean_code)) := by
  unfold generate_labels_sync
  rw [max_zero_toNat, generateLoop_eq]
  refine ⟨?_, ?_, ?_⟩
  · simpa using h
  · rw [List.drop_reverse, List.reverse_reverse]
  · rw [List.take_reverse]

/-- C5: for a requested quantity `k` exceeding the page count `p`, generation
does not fail: it stops early with exactly `p` output pages and exhausts the
source to zero pages. -/
theorem C5_generation_partial_success (pages : List SourcePage) (k : Nat)
    (md : LabelMeta) (ean_code : String) (h : pages.length < k) :
    (generate_labels_sync pages (k : Int) md ean_code).1.length = pages.length ∧
    (generate_labels_sync pages (k : Int) md ean_code).2 = [] := by
  unfold generate_labels_sync
  rw [max_zero_toNat, generateLoop_eq]
  constructor
  · simp; omega
  · rw [List.drop_eq_nil_iff.mpr (by simpa using Nat.le_of_lt h)]
    rfl

/-- The five-page source document of the spec's scenario (§8). -/
def scenarioPages : List SourcePage :=
  [{ matrixPayload := some "P1" }, { matrixPayload := some "P2" },
   { matrixPayload := some "P3" }, { matrixPayload := some "P4" },
   { matrixPayload := some "P5" }]

def scenarioMeta : LabelMeta := { title := "T-Shirt", wb_size := "M" }

theorem C4_witness :
    (generate_labels_sync scenarioPages ((3 : Nat) : Int) scenarioMeta "").1.length = 3 ∧
    (generate_labels_sync scenarioPages ((3 : Nat) : Int) scenarioMeta "").2
      = scenarioPages.take (scenarioPages.length - 3) ∧
    (generate_labels_sync scenarioPages ((3 : Nat) : Int) scenarioMeta "").1
      = ((scenarioPages.drop (scenarioPages.length - 3)).reverse).map
          (composeLabelPage scenarioMeta (make_ean_reader "")) :=
  C4_generation_consumes_tail scenarioPages 3 scenarioMeta "" (by decide)

theorem C5_witness :
    (generate_labels_sync scenarioPages ((7 : Nat) : Int) scenarioMeta "").1.length
      = scenarioPages.length ∧
    (generate_labels_sync scenarioPages ((7 : Nat) : Int) scenarioMeta "").2 = [] :=
  C5_generation_partial_success scenarioPages 7 scenarioMeta "" (by decide)

/-! ## Theorems about the check digit (claim C7) -/

theorem ean13WeightedSum_append (v : Nat) :
    ∀ (i : Nat) (xs : List Nat),
      ean13WeightedSum i (xs ++ [v])
        = ean13WeightedSum i xs + (if (i + xs.length) % 2 = 0 then v else 3 * v) := by
  intro i xs
  induction xs generalizing i with
  | nil => simp [ean13WeightedSum]
  | cons x xs ih =>
    show (if i % 2 = 0 then x else 3 * x) + ean13WeightedSum (i + 1) (xs ++ [v])
        = (if i % 2 = 0 then x else 3 * x) + ean13WeightedSum (i + 1) xs
          + (if (i + (xs.length + 1)) % 2 = 0 then v else 3 * v)
    rw [ih (i + 1)]
    have hmod : (i + 1 + xs.length) % 2 = (i + (xs.length + 1)) % 2 := by omega
    rw [hmod, Nat.add_assoc]

/-- C7: for every 12-digit numeric string, `checksum_ean13` returns a single
digit whose appending yields a 13-digit numeric string passing the standard
EAN-13 checksum (alternating 1,3 weights, mod 10). -/
theorem C7_checksum_valid (d12 : List Char) (h12 : d12.length = 12)
    (hdig : d12.all Char.isDigit) :
    checksum_ean13 d12 < 10 ∧
    ean13Valid (String.mk (d12 ++ [digitToChar (checksum_ean13 d12)])) := by
  have hlt : checksum_ean13 d12 < 10 := by
    unfold checksum_ean13
    omega
  refine ⟨hlt, ?_, ?_, ?_⟩
  · simpa using h12
  · simp only [String.mk, List.all_append, Bool.and_eq_true]
    refine ⟨by simpa using hdig, ?_⟩
    simp only [List.all_cons, List.all_nil, Bool.and_true]
    exact digitToChar_isDigit hlt
  · show ean13WeightedSum 0 ((d12 ++ [digitToChar (checksum_ean13 d12)]).map digitVal) % 10 = 0
    rw [List.map_append]
    simp only [List.map_cons, List.map_nil]
    rw [ean13WeightedSum_append]
    have hlen : (d12.map digitVal).length = 12 := by simpa using h12
    rw [hlen]
    rw [if_pos (show (0 + (12:Nat)) % 2 = 0 from rfl)]
    rw [digitVal_digitToChar hlt]
    unfold checksum_ean13
    omega

theorem C7_witness :
    checksum_ean13 "400638133393".data < 10 ∧
    ean13Valid (String.mk ("400638133393".data ++
      [digitToChar (checksum_ean13 "400638133393".data)])) :=
  C7_checksum_valid "400638133393".data (by decide) (by decide)

/-! ## Theorems about the GS1 → EAN-13 fallback (claim C6) -/

theorem checksum_lt_ten (d12 : List Char) : checksum_ean13 d12 < 10 := by
  unfold checksum_ean13
  omega

theorem digits14_spec {l d : List Char} (h : digits14 l = some d) :
    d.length = 14 ∧ d.all Char.isDigit = true := by
  simp only [digits14] at h
  split at h
  · rename_i hb
    rw [Bool.and_eq_true] at hb
    cases h
    exact ⟨of_decide_eq_true hb.1, hb.2⟩
  · exact absurd h (by simp)

theorem matchParen01_digits {l d : List Char} (h : matchParen01 l = some d) :
    d.length = 14 ∧ d.all Char.isDigit = true := by
  unfold matchParen01 at h
  split at h
  · exact digits14_spec h
  · exact absurd h (by simp)

theorem matchBare01_digits {l d : List Char} (h : matchBare01 l = some d) :
    d.length = 14 ∧ d.all Char.isDigit = true := by
  unfold matchBare01 at h
  split at h
  · exact digits14_spec h
  · exact absurd h (by simp)

theorem searchFirst_digits {m : List Char → Option (List Char)}
    (hm : ∀ {l d : List Char}, m l = some d → d.length = 14 ∧ d.all Char.isDigit = true) :
    ∀ {s d : List Char}, searchFirst m s = some d →
      d.length = 14 ∧ d.all Char.isDigit = true := by
  intro s
  induction s with
  | nil => intro d h; simp [searchFirst] at h
  | cons c cs ih =>
    intro d h
    rw [searchFirst] at h
    cases hmc : m (c :: cs) with
    | none => rw [hmc] at h; exact ih h
    | some r =>
      rw [hmc] at h
      cases h
      exact hm hmc

theorem gs1Gtin14_digits {s : String} {g : List Char} (h : gs1Gtin14 s = some g) :
    g.length = 14 ∧ g.all Char.isDigit = true := by
  simp only [gs1Gtin14] at h
  cases hp : searchFirst matchParen01 (stripWhitespace s.data) with
  | some r =>
    rw [hp] at h
    cases h
    exact searchFirst_digits (fun {l d} hd => matchParen01_digits hd) hp
  | none =>
    rw [hp] at h
    exact searchFirst_digits (fun {l d} hd => matchBare01_digits hd) h

/-- C6 (amended): the fallback acts on the **leftmost** regex match of the
whitespace-stripped text (the parenthesized `(01)` pattern tried first): when
no pattern matches there is no result; when the matched GTIN-14 does not start
with `0` there is no result; when it does, the result is exactly the 13-digit
numeric string obtained by stripping the leading `0` and recomputing the check
digit over the remaining first 12 digits. -/
theorem C6_gs1_extraction (s : String) :
    (gs1Gtin14 s = none → ean13_from_gs1 s = none) ∧
    (∀ g14 : List Char, gs1Gtin14 s = some g14 →
      (g14.head? = some '0' →
        ean13_from_gs1 s = some (ean13OfGtin g14) ∧
        (ean13OfGtin g14).length = 13 ∧
        (ean13OfGtin g14).data.all Char.isDigit = true) ∧
      (g14.head? ≠ some '0' → ean13_from_gs1 s = none)) := by
  constructor
  · intro h
    by_cases hs : s = ""
    · simp [ean13_from_gs1, hs]
    · simp [ean13_from_gs1, hs, h]
  · intro g14 hg
    have hs : ¬ s = "" := by
      intro hs
      rw [hs] at hg
      simp [gs1Gtin14, stripWhitespace, searchFirst] at hg
    have hwf := gs1Gtin14_digits hg
    have h12 : g14.tail.dropLast.length = 12 := by
      rw [List.length_dropLast, List.length_tail, hwf.1]
    constructor
    · intro h0
      refine ⟨?_, ?_, ?_⟩
      · simp only [ean13_from_gs1, if_neg hs, hg]
        rw [if_pos h0]
        rfl
      · show (g14.tail.dropLast ++ [digitToChar (checksum_ean13 g14.tail.dropLast)]).length = 13
        rw [List.length_append, h12]
        rfl
      · show (g14.tail.dropLast ++ [digitToChar (checksum_ean13 g14.tail.dropLast)]).all
          Char.isDigit = true
        rw [List.all_append, Bool.and_eq_true]
        constructor
        · rw [List.all_eq_true]
          intro x hx
          have hall := hwf.2
          rw [List.all_eq_true] at hall
          exact hall x (List.tail_subset _ (List.dropLast_subset _ hx))
        · simp only [List.all_cons, List.all_nil, Bool.and_true]
          exact digitToChar_isDigit (checksum_lt_ten _)
    · intro h0
      simp only [ean13_from_gs1, if_neg hs, hg]
      rw [if_neg h0]

/-- C6 as stated is false: this text contains (with no whitespace) `01`
followed by the 14-digit GTIN `04006381333931` starting with `0`, yet the
fallback returns no result, because `re.search` takes the **leftmost** `01`
match, whose GTIN `12345678901234` does not start with `0`. -/
theorem C6_counterexample :
    containsZeroGtinPattern "01123456789012340104006381333931" = true ∧
    ean13_from_gs1 "01123456789012340104006381333931" = none := ⟨rfl, rfl⟩

theorem C6_witness :
    ean13_from_gs1 "(01)04006381333931" = some (ean13OfGtin "04006381333931".data) ∧
    ean13OfGtin "04006381333931".data = "4006381333931" :=
  ⟨(((C6_gs1_extraction "(01)04006381333931").2 "04006381333931".data rfl).1 rfl).1, rfl⟩

/-! ## Theorems about delivery-number sanitization (claim C9) -/

theorem collapseDashes_cons_of_not_dash {c : Char} (h : isDash c = false)
    (l : List Char) : collapseDashes (c :: l) = c :: collapseDashes l := by
  cases l with
  | nil => rfl
  | cons d cs => rw [collapseDashes, if_neg (by simp [h])]

theorem collapseDashes_dash (l : List Char) :
    collapseDashes ('-' :: l) = '-' :: collapseDashes (l.dropWhile isDash) := by
  induction l with
  | nil => rfl
  | cons d cs ih =>
    by_cases hd : isDash d = true
    · have hdc : d = '-' := by simpa [isDash] using hd
      subst hdc
      rw [collapseDashes, if_pos (by simp [isDash]), ih,
        List.dropWhile_cons, if_pos hd]
    · rw [collapseDashes, if_neg (by simp [hd]),
        List.dropWhile_cons, if_neg (by simp [hd]),
        collapseDashes_cons_of_not_dash (by simpa using hd)]

theorem keepChar_dash : keepChar '-' = true := by decide

theorem dashNonWord_cons (c : Char) (cs : List Char) :
    dashNonWord (c :: cs) = (if keepChar c then c else '-') :: dashNonWord cs := rfl

theorem dashNonWord_dropWhile (cs : List Char) :
    (dashNonWord cs).dropWhile isDash = dashNonWord (cs.dropWhile badOrDash) := by
  induction cs with
  | nil => rfl
  | cons c cs ih =>
    by_cases hd : c = '-'
    · subst hd
      simp [dashNonWord_cons, keepChar_dash, List.dropWhile_cons, isDash, badOrDash, ih]
    · by_cases hk : keepChar c = true
      · simp [dashNonWord_cons, hk, List.dropWhile_cons, isDash, hd, badOrDash]
      · simp [dashNonWord_cons, hk, List.dropWhile_cons, isDash, hd, badOrDash, ih]

theorem dropWhile_notKeep_badOrDash (l : List Char) :
    (l.dropWhile notKeep).dropWhile badOrDash = l.dropWhile badOrDash := by
  induction l with
  | nil => rfl
  | cons c cs ih =>
    by_cases hk : keepChar c = true
    · simp [List.dropWhile_cons, notKeep, hk]
    · simp [List.dropWhile_cons, notKeep, hk, badOrDash, ih]

theorem collapseDashes_dashNonWord_aux :
    ∀ (n : Nat) (s : List Char), s.length ≤ n →
      collapseDashes (dashNonWord s) = sanCore s := by
  intro n
  induction n with
  | zero =>
    intro s hs
    rw [List.length_eq_zero.mp (Nat.le_zero.mp hs)]
    simp [dashNonWord, collapseDashes, sanCore]
  | succ n ih =>
    intro s hs
    match s with
    | [] => simp [dashNonWord, collapseDashes, sanCore]
    | c :: cs =>
      have hcs : cs.length ≤ n := by simpa using hs
      have hdropped : (cs.dropWhile badOrDash).length ≤ n :=
        le_trans (dropWhile_length_le _ cs) hcs
      by_cases hd : c = '-'
      · subst hd
        rw [dashNonWord_cons, if_pos keepChar_dash, collapseDashes_dash,
          dashNonWord_dropWhile, ih _ hdropped, sanCore]
        simp
      · by_cases hk : keepChar c = true
        · rw [dashNonWord_cons, if_pos hk,
            collapseDashes_cons_of_not_dash (by simp [isDash, hd]), ih cs hcs,
            sanCore]
          simp [hk, hd]
        · rw [dashNonWord_cons, if_neg (by simp [hk]), collapseDashes_dash,
            dashNonWord_dropWhile, ih _ hdropped, sanCore]
          simp [hk]

theorem collapseDashes_dashNonWord (s : List Char) :
    collapseDashes (dashNonWord s) = sanCore s :=
  collapseDashes_dashNonWord_aux s.length s le_rfl

theorem collapseDashes_runDash_aux :
    ∀ (n : Nat) (s : List Char), s.length ≤ n →
      collapseDashes (runDashNonWord s) = sanCore s ∧
      collapseDashes ((runDashNonWord s).dropWhile isDash)
        = sanCore (s.dropWhile badOrDash) := by
  intro n
  induction n with
  | zero =>
    intro s hs
    rw [List.length_eq_zero.mp (Nat.le_zero.mp hs)]
    constructor <;> simp [runDashNonWord, collapseDashes, sanCore]
  | succ n ih =>
    intro s hs
    match s with
    | [] => constructor <;> simp [runDashNonWord, collapseDashes, sanCore]
    | c :: cs =>
      have hcs : cs.length ≤ n := by simpa using hs
      by_cases hd : c = '-'
      · subst hd
        rw [runDashNonWord, if_pos keepChar_dash]
        refine ⟨?_, ?_⟩
        · rw [collapseDashes_dash, (ih cs hcs).2, sanCore]
          simp
        · rw [List.dropWhile_cons]
          simp only [show isDash '-' = true from rfl, if_true]
          rw [show ('-' :: cs).dropWhile badOrDash = cs.dropWhile badOrDash from by
            simp [List.dropWhile_cons, badOrDash]]
          exact (ih cs hcs).2
      · by_cases hk : keepChar c = true
        · have hnd : isDash c = false := by simp [isDash, hd]
          have hb : badOrDash c = false := by simp [badOrDash, hk, hd]
          rw [runDashNonWord, if_pos hk]
          refine ⟨?_, ?_⟩
          · rw [collapseDashes_cons_of_not_dash hnd, (ih cs hcs).1, sanCore]
            simp [hk, hd]
          · rw [List.dropWhile_cons]
            simp only [hnd, Bool.false_eq_true, if_false]
            rw [show (c :: cs).dropWhile badOrDash = c :: cs from by
              simp [List.dropWhile_cons, hb]]
            rw [collapseDashes_cons_of_not_dash hnd, (ih cs hcs).1, sanCore]
            simp [hk, hd]
        · have hb : badOrDash c = true := by simp [badOrDash, hk]
          have hlen : (cs.dropWhile notKeep).length ≤ n :=
            le_trans (dropWhile_length_le _ cs) hcs
          rw [runDashNonWord, if_neg (by simp [hk])]
          refine ⟨?_, ?_⟩
          · rw [collapseDashes_dash, (ih _ hlen).2, dropWhile_notKeep_badOrDash,
              sanCore]
            simp [hk]
          · rw [List.dropWhile_cons]
            simp only [show isDash '-' = true from rfl, if_true]
            rw [show (c :: cs).dropWhile badOrDash = cs.dropWhile badOrDash from by
              simp [List.dropWhile_cons, hb]]
            rw [(ih _ hlen).2, dropWhile_notKeep_badOrDash]

theorem collapseDashes_runDash (s : List Char) :
    collapseDashes (runDashNonWord s) = sanCore s :=
  (collapseDashes_runDash_aux s.length s le_rfl).1

/-- C9: the code's sanitization (dash each non-word/non-hyphen character,
collapse hyphen runs, strip hyphens at the ends) computes exactly the claim's
description (replace each **run** of non-word/non-hyphen characters with one
hyphen, collapse repeated hyphens, strip leading/trailing hyphens); the
scenario value `"WB 2024/09"` sanitizes to `"WB-2024-09"`; and whenever the
sanitized delivery number is empty, barcode generation fails with the
validation error. -/
theorem C9_sanitization (s : String) :
    sanitizeDeliveryNumber s = sanitizeSpec s ∧
    deliverySafeNum "WB 2024/09" = Except.ok "WB-2024-09" ∧
    (sanitizeDeliveryNumber (pyStrip s) = "" →
      deliverySafeNum s = Except.error "Номер поставки не может быть пустым") := by
  refine ⟨?_, rfl, ?_⟩
  · unfold sanitizeDeliveryNumber sanitizeSpec
    rw [collapseDashes_dashNonWord, collapseDashes_runDash]
  · intro h
    simp [deliverySafeNum, h]

theorem C9_witness :
    deliverySafeNum "/ /" = Except.error "Номер поставки не может быть пустым" :=
  (C9_sanitization "/ /").2.2 rfl

/-! ## The rejected keyword argument and its consequences (claim C3) -/

theorem callGenerateLabelsSync_typeError (pages : List SourcePage) (q : Int)
    (md : LabelMeta) (ean : String) :
    callGenerateLabelsSync pages q md ean
      = Except.error (PyError.typeError "label_settings") := rfl

theorem oiLoop_skips_all (today : Nat) (ip : String) (oid : Nat) :
    ∀ (groups : List ((Nat × String) × List OrderItem)) (c p : DB) (m l t : Nat),
      oiLoop today ip oid groups c p m l t = oiLoop today ip oid [] c p m l t := by
  intro groups
  induction groups with
  | nil => intro c p m l t; rfl
  | cons g rest ih =>
    intro c p m l t
    obtain ⟨⟨nm, size⟩, items⟩ := g
    have step : oiLoop today ip oid (((nm, size), items) :: rest) c p m l t
        = oiLoop today ip oid rest c p m l t := by
      rw [oiLoop]
      split
      · rfl
      · split
        · rfl
        · split
          · rfl
          · split
            · rfl
            · simp only [callGenerateLabelsSync_typeError]
    rw [step, ih]

theorem oiLoop_nil_nothing_moved (today : Nat) (ip : String) (oid : Nat)
    (c p : DB) (l : Nat) :
    oiLoop today ip oid [] c p 0 l 0 = (Resp.nothingMoved, p) := rfl

theorem poPhase2_db_unchanged (today : Nat) (ip : String) (db : DB) :
    ∀ groups, (poPhase2 today ip groups db db 0 0 0).2 = db := by
  intro groups
  cases groups with
  | nil => rfl
  | cons g rest =>
    obtain ⟨⟨nm, size⟩, items⟩ := g
    rw [poPhase2]
    split
    · rfl
    · split
      · rfl
      · split
        · rfl
        · simp only [callGenerateLabelsSync_typeError]

/-- C3: both move-to-production endpoints call `generate_labels_sync` with the
keyword argument `label_settings`, which its signature does not accept, so
every such call raises `TypeError` before a single label is produced or a
single source page is consumed — and consequently neither endpoint can ever
change the database state (no pages consumed, no rows moved, no ledger
deduction): label generation through these endpoints never succeeds. -/
theorem C3_label_settings_call_fails :
    (moveToProductionCallKwargs.contains "label_settings" = true ∧
     generateLabelsSyncParams.contains "label_settings" = false ∧
     unexpectedKwarg generateLabelsSyncParams moveToProductionCallKwargs
       = some "label_settings") ∧
    (∀ (pages : List SourcePage) (q : Int) (md : LabelMeta) (ean : String),
       callGenerateLabelsSync pages q md ean
         = Except.error (PyError.typeError "label_settings")) ∧
    (∀ (db : DB) (order_id : Option Nat) (item_ids : List Nat) (today : Nat)
       (ip : String), (oiMoveToProduction db order_id item_ids today ip).2 = db) ∧
    (∀ (db : DB) (item_ids : List Nat) (today : Nat) (ip : String),
       (poMoveToProduction db item_ids today ip).2 = db) := by
  refine ⟨⟨rfl, rfl, rfl⟩, fun _ _ _ _ => rfl, ?_, ?_⟩
  · intro db order_id item_ids today ip
    cases order_id with
    | none => rfl
    | some oid =>
      show (oiMoveToProduction db (some oid) item_ids today ip).2 = db
      simp only [oiMoveToProduction]
      split
      · rfl
      · split
        · rfl
        · split
          · rfl
          · rw [oiLoop_skips_all, oiLoop_nil_nothing_moved]
  · intro db item_ids today ip
    simp only [poMoveToProduction]
    split
    · rfl
    · split
      · rfl
      · split
        · rfl
        · split
          · rfl
          · exact poPhase2_db_unchanged today ip db _

/-! ## Concrete workspace fixtures -/

def pageP (n : Nat) : SourcePage := { matrixPayload := some ("P" ++ toString n) }

def productA : Product :=
  { nm_id := 100, group_id := 1, title := "Футболка", brand := "B",
    sizes := [{ techSize := "M", skus := ["4006381333931"] }] }

def groupA : ProductGroup := { id := 1 }

def cisA : CISLabel :=
  { group_id := 1, tech_size := "M", pages := [pageP 1, pageP 2, pageP 3] }

def poOrderA : ProductionOrder :=
  { id := 1, order_item_id := 11, nm_id := 100, tech_size := "M",
    color := "Красный", brand := "B", title := "Футболка", quantity := 3,
    print_status := "ГОТОВ" }

def orderItemA : OrderItem :=
  { id := 11, order_id := 5, nm_id := 100, tech_size := "M",
    color := "Красный", brand := "B", title := "Футболка", quantity := 3,
    print_status := "ГОТОВ" }

/-- Two bags in stock while the batch needs three (spec §8 scenario). -/
def invTwoBags : Inventory := { bags_25x30 := 2 }

/-- A fully valid three-unit batch on the production-orders stage. -/
def dbBatchPO : DB :=
  { products := [productA], productGroups := [groupA], cisLabels := [cisA],
    productionOrders := [poOrderA], inventory := some invTwoBags }

/-- The same batch on the order-items stage. -/
def dbBatchOI : DB :=
  { products := [productA], productGroups := [groupA], cisLabels := [cisA],
    orderItems := [orderItemA], inventory := some invTwoBags }

/-- The order-items batch with no CIS label uploaded for its group. -/
def dbNoCisOI : DB :=
  { products := [productA], productGroups := [groupA],
    orderItems := [orderItemA], inventory := some invTwoBags }

/-- The production-orders batch with no CIS label uploaded for its group. -/
def dbNoCisPO : DB :=
  { products := [productA], productGroups := [groupA],
    productionOrders := [poOrderA], inventory := some invTwoBags }

/-! ## Claim C1: the insufficient-bags rejection -/

/-- C1 (code bug): on a batch needing 3 bags with only 2 available, neither
endpoint ever reaches the bag check or reports the required/available
quantities: the production-orders endpoint fails with the `label_settings`
`TypeError` (a 500 with no quantities), and the order-items endpoint skips the
group and returns its generic 400 — in both cases the state is unchanged, but
the rejection does not state required 3 / available 2 as the claim demands. -/
theorem C1_bag_check_unreachable :
    (invTwoBags.bags_25x30 < (3 : Int)) ∧
    poMoveToProduction dbBatchPO [1] 0 "ИП"
      = (Resp.labelGenFailure 100 "M" (PyError.typeError "label_settings"),
         dbBatchPO) ∧
    oiMoveToProduction dbBatchOI (some 5) [11] 0 "ИП"
      = (Resp.nothingMoved, dbBatchOI) := by
  exact ⟨by decide, by decide, by decide⟩

/-! ## Claim C2: all-or-nothing validation with aggregated errors -/

/-- C2 fails as stated for the order-items endpoint: the batch's only group
has no uploaded label-source document, yet the move is not aborted with an
aggregated per-group error list — the group is silently skipped and the
endpoint answers with its generic "nothing was moved" message. -/
theorem C2_counterexample :
    findCISLabel dbNoCisOI 1 "M" = none ∧
    oiMoveToProduction dbNoCisOI (some 5) [11] 0 "ИП"
      = (Resp.nothingMoved, dbNoCisOI) ∧
    isAggregatedAbort (oiMoveToProduction dbNoCisOI (some 5) [11] 0 "ИП").1
      = false := by
  exact ⟨by decide, by decide, by decide⟩

/-- C2 (amended): the **production-orders** move-to-production endpoint first
validates every distinct (product, size) group — product exists, size-to-sku
mapping exists, an uploaded CIS label document exists, that document has at
least as many pages as the group's summed quantity — and if any group fails
any check, the whole move is aborted with the aggregated per-group error list
and zero units transition (the database is unchanged, nothing is generated);
the order-items endpoint instead skips failing groups one by one. -/
theorem C2_validation_abort (db : DB) (item_ids : List Nat) (today : Nat)
    (ip : String)
    (h1 : item_ids.isEmpty = false)
    (h2 : (db.productionOrders.filter (fun i => item_ids.contains i.id)).isEmpty
            = false)
    (h3 : ((db.productionOrders.filter (fun i => item_ids.contains i.id)).filter
            (fun i => i.print_status != "ГОТОВ")).isEmpty = true)
    (h4 : poValidationErrors db
            (db.productionOrders.filter (fun i => item_ids.contains i.id)) ≠ []) :
    poMoveToProduction db item_ids today ip
      = (Resp.validationAbort
          (poValidationErrors db
            (db.productionOrders.filter (fun i => item_ids.contains i.id))), db) := by
  have h4' : (poValidationErrors db
      (db.productionOrders.filter (fun i => item_ids.contains i.id))).isEmpty
        = false := by
    cases hv : poValidationErrors db
        (db.productionOrders.filter (fun i => item_ids.contains i.id)) with
    | nil => exact absurd hv h4
    | cons a l => rfl
  simp only [poMoveToProduction, h1, h2, h3, h4', Bool.not_false, Bool.not_true,
    Bool.false_eq_true, if_false, if_true]

theorem C2_witness :
    poMoveToProduction dbNoCisPO [1] 0 "ИП"
      = (Resp.validationAbort
          (poValidationErrors dbNoCisPO
            (dbNoCisPO.productionOrders.filter (fun i => [1].contains i.id))),
         dbNoCisPO) :=
  C2_validation_abort dbNoCisPO [1] 0 "ИП" (by decide) (by decide) (by decide)
    (by decide)

/-! ## Claim C8: print-task completion and the film ledger -/

/-- C8: completing a print task with positive `film_usage` fails as a whole —
with the required and available amounts and an unchanged state — when the
available film is short; otherwise it deducts exactly `film_usage`, deletes
the originating order items, and removes the print task. -/
theorem C8_complete_print_task (db : DB) (task_id : Nat) (print_task : PrintTask)
    (hfind : db.printTasks.find? (fun t => t.id == task_id) = some print_task)
    (hpos : 0 < print_task.film_usage) :
    ((db.inventory.getD {}).print_film < print_task.film_usage →
      complete_print_task db task_id
        = (PrintResp.insufficientFilm print_task.film_usage
            (db.inventory.getD {}).print_film, db)) ∧
    (print_task.film_usage ≤ (db.inventory.getD {}).print_film →
      complete_print_task db task_id
        = (PrintResp.completed,
           { db with
               inventory := some { db.inventory.getD {} with
                 print_film := (db.inventory.getD {}).print_film
                   - print_task.film_usage },
               productionOrders := db.productionOrders.map (fun po =>
                 if print_task.order_item_ids.contains po.order_item_id
                 then { po with print_status := "ГОТОВ" } else po),
               orderItems := db.orderItems.filter
                 (fun i => !(print_task.order_item_ids.contains i.id)),
               printTasks := db.printTasks.eraseP (fun t => t.id == task_id) })) := by
  constructor
  · intro hlt
    simp only [complete_print_task, hfind]
    rw [if_pos hpos, if_pos hlt]
  · intro hle
    simp only [complete_print_task, hfind]
    rw [if_pos hpos, if_neg (not_lt.mpr hle)]
    rfl

def printTaskA : PrintTask := { id := 7, film_usage := 2, order_item_ids := [11] }

def invFilm5 : Inventory := { print_film := 5 }

def dbPrint : DB :=
  { orderItems := [orderItemA], productionOrders := [poOrderA],
    printTasks := [printTaskA], inventory := some invFilm5 }

theorem C8_witness :
    complete_print_task dbPrint 7
      = (PrintResp.completed,
         { dbPrint with
             inventory := some { dbPrint.inventory.getD {} with
               print_film := (dbPrint.inventory.getD {}).print_film
                 - printTaskA.film_usage },
             productionOrders := dbPrint.productionOrders.map (fun po =>
               if printTaskA.order_item_ids.contains po.order_item_id
               then { po with print_status := "ГОТОВ" } else po),
             orderItems := dbPrint.orderItems.filter
               (fun i => !(printTaskA.order_item_ids.contains i.id)),
             printTasks := dbPrint.printTasks.eraseP (fun t => t.id == 7) }) :=
  (C8_complete_print_task dbPrint 7 printTaskA rfl
      (by norm_num [printTaskA])).2
    (by norm_num [printTaskA, dbPrint, invFilm5])

/-! ## Claim C10: per-field display settings -/

def userNoColor : UserRow := { label_show_color := some false }

def metaRed : LabelMeta := { color := "Красный", nm_id := "123456" }

def metaEmpty : LabelMeta := { nm_id := "123456" }

/-- C10 (code bug): the label composer consults no display settings at all —
its parameter list has no `label_settings` (the callers' attempt to pass one
is the `TypeError` of C3) — so a workspace whose settings disable the color
field still gets the color drawn on every composed page; moreover the article
line is drawn even when every optional field is absent. -/
theorem C10_settings_not_consulted :
    (get_label_settings userNoColor).show_color = false ∧
    TextLine.colorLine "Красный" ∈ drawnTextFields metaRed ∧
    (∀ page : SourcePage,
      TextLine.colorLine "Красный" ∈ (composeLabelPage metaRed none page).texts) ∧
    drawnTextFields metaEmpty = [TextLine.articleLine "123456"] ∧
    generateLabelsSyncParams.contains "label_settings" = false := by
  refine ⟨rfl, by decide, ?_, by decide, rfl⟩
  intro page
  show TextLine.colorLine "Красный" ∈ drawnTextFields metaRed
  decide

end WB
